import Mathlib

/-!
Shallow embedding of the retrieval pipeline in `src/lib/opensearch.py`
(functions `insert_metadata_to_opensearch` and
`query_imagesearch_to_opensearch`), together with theorems settling the
specification claims about them.

Modelling conventions:
* Python deserialized-JSON values (the OpenSearch response dicts) are the
  inductive `JVal`; Python `x[k]` subscription, `k in x` membership and
  `for y in x` iteration over such values are `getItem`, `pyMember` and
  `pyIter`, each returning `Except String _` where the Python operation
  can raise (`KeyError` / `TypeError`).
* Embedding vectors are `List Int` (no claim depends on float arithmetic).
  The Embedding Adapter `lib.bedrock.get_text_vector` is repository code
  outside `src/`; per the spec it returns `vector | null`, so it is passed
  as a parameter of type `String → Option (List Int)`.
* File reads and base64 encoding are passed as opaque-to-the-logic
  function parameters (`String → String`); claims never inspect them.
* Exceptions are `Except.error msg`; a normal Python return is `.ok`.
* Calls to external collaborators are recorded in event traces so that
  ordering / absence-of-call claims are statable.
-/

/-- Deserialized JSON value, as handed back by the OpenSearch client
(`client.search` returns the parsed response body). -/
inductive JVal where
  | null
  | num (n : Int)
  | str (s : String)
  | arr (items : List JVal)
  | obj (fields : List (String × JVal))
deriving Inhabited

/-- Does a JSON value equal the string `k`?  Used to model Python
equality between a string and a list element in `k in someList`. -/
def JVal.isStrEq (k : String) : JVal → Bool
  | .str s => s == k
  | _ => false

/-- Python subscription `v[k]` with a string key: defined on dicts
(raising `KeyError` when the key is absent), a `TypeError` on every
other value (lists and strings demand integer indices). -/
def getItem (v : JVal) (k : String) : Except String JVal :=
  match v with
  | .obj fields =>
      match fields.find? (fun p => p.1 == k) with
      | some p => .ok p.2
      | none => .error ("KeyError: " ++ k)
  | _ => .error ("TypeError: value is not subscriptable with key " ++ k)

/-- Python membership `k in v` for a string `k`: key membership on dicts,
element equality on lists, substring on strings, `TypeError` otherwise
(numbers and `None` are not iterable). -/
def pyMember (k : String) (v : JVal) : Except String Bool :=
  match v with
  | .obj fields => .ok (fields.any (fun p => p.1 == k))
  | .arr items => .ok (items.any (JVal.isStrEq k))
  | .str s => .ok (decide (k.data <:+: s.data))
  | _ => .error "TypeError: argument is not iterable"

/-- Python iteration `for x in v`: the items of a list, the keys of a
dict, the one-character strings of a string, `TypeError` otherwise. -/
def pyIter (v : JVal) : Except String (List JVal) :=
  match v with
  | .arr items => .ok items
  | .obj fields => .ok (fields.map (fun p => JVal.str p.1))
  | .str s => .ok (s.data.map (fun c => JVal.str (String.mk [c])))
  | _ => .error "TypeError: value is not iterable"

/-- One loop iteration of the response-processing loop
(src/lib/opensearch.py lines 198-202): look up `hit[_source]`, then its
`image` and `text` fields, in that evaluation order. -/
def extractHit (hit : JVal) : Except String (JVal × JVal) :=
  match getItem hit "_source" with
  | .error e => .error e
  | .ok src =>
    match getItem src "image" with
    | .error e => .error e
    | .ok image =>
      match getItem src "text" with
      | .error e => .error e
      | .ok text => .ok (image, text)

/-- The whole response-processing loop: accumulates the parallel `images`
and `contents` lists, aborting with the exception of the first failing
hit (as the Python `for` loop does). -/
def extractHits : List JVal → Except String (List JVal × List JVal)
  | [] => .ok ([], [])
  | hit :: rest =>
    match extractHit hit with
    | .error e => .error e
    | .ok (image, text) =>
      match extractHits rest with
      | .error e => .error e
      | .ok (images, contents) => .ok (image :: images, text :: contents)

/-- Lines 195-210 of src/lib/opensearch.py: the guard
`if 'hits' in response and 'hits' in response['hits']` (with Python
short-circuit evaluation), the hit loop on success, and the
`return [], []` error branch otherwise. -/
def processResponse (response : JVal) : Except String (List JVal × List JVal) :=
  match pyMember "hits" response with
  | .error e => .error e
  | .ok false => .ok ([], [])
  | .ok true =>
    match getItem response "hits" with
    | .error e => .error e
    | .ok hitsVal =>
      match pyMember "hits" hitsVal with
      | .error e => .error e
      | .ok false => .ok ([], [])
      | .ok true =>
        match getItem hitsVal "hits" with
        | .error e => .error e
        | .ok hitsList =>
          match pyIter hitsList with
          | .error e => .error e
          | .ok hits => extractHits hits

/-- A clause of the `bool.must` array of the issued OpenSearch query. -/
inductive Clause where
  | term (field value : String)
  | knn (field : String) (vector : List Int) (k : Nat)
deriving DecidableEq

/-- The query body built at src/lib/opensearch.py lines 137-184, with the
fields the source populates: `size`, `_source.excludes`, and the
`query.bool.must` clause list. -/
structure QueryBody where
  size : Nat
  sourceExcludes : List String
  must : List Clause
deriving DecidableEq

/-- Lines 137-184: the `if (query_type == "imagesearch")` dispatch.  Both
branches are written out, as in the source; they differ only in the
`term` filter value (`sub` vs `main`). -/
def mkQueryBody (query_type : String) (doc_count : Nat) (vector_query : List Int) : QueryBody :=
  if query_type == "imagesearch" then
    { size := doc_count
      sourceExcludes := ["content_vector"]
      must := [Clause.term "image_type" "sub",
               Clause.knn "content_vector" vector_query 5] }
  else
    { size := doc_count
      sourceExcludes := ["content_vector"]
      must := [Clause.term "image_type" "main",
               Clause.knn "content_vector" vector_query 5] }

/-- External calls observable during a query run. -/
inductive QueryEvent where
  | embedCall (text : String)
  | searchCall (body : QueryBody)
deriving DecidableEq

/-- Result of a query run: the trace of external calls made, and the
Python outcome (returned pair, or a raised exception). -/
structure QueryRun where
  events : List QueryEvent
  result : Except String (List JVal × List JVal)

/-- `query_imagesearch_to_opensearch` (src/lib/opensearch.py 101-210).
`embed` is `lib.bedrock.get_text_vector` (spec: returns vector or null);
`search` is the external index executing the query body.  The source
logs `len(vector_query)` at line 135 before building the query body, so
a null vector raises `TypeError` there (Python `len(None)`). -/
def query_imagesearch_to_opensearch (query : String) (query_type : String)
    (doc_count : Nat) (embed : String → Option (List Int))
    (opensearch_endpoint : Option String) (index_name : Option String)
    (search : QueryBody → JVal) : QueryRun :=
  if opensearch_endpoint.isNone || index_name.isNone then
    { events := [], result := .ok ([], []) }
  else
    match embed query with
    | none =>
        { events := [QueryEvent.embedCall query]
          result := .error "TypeError: object of type NoneType has no len" }
    | some vector_query =>
        let query_body := mkQueryBody query_type doc_count vector_query
        let response := search query_body
        { events := [QueryEvent.embedCall query, QueryEvent.searchCall query_body]
          result := processResponse response }

/-- One entry of the metadata store file (spec §6: a mapping keyed by
image path to an object with fields `page`, `image_text`, `type`), as
read by `insert_metadata_to_opensearch` at lines 56-65. -/
structure MetaItem where
  page : Int
  image_text : String
  type : String
deriving DecidableEq

/-- The document assembled at src/lib/opensearch.py lines 79-87.
`content_vector := none` models the field being absent from the dict
(the source adds the key only when `embedding is not None`). -/
structure Document where
  page_number : Int
  image_file_name : String
  text : String
  image_type : String
  image : String
  content_vector : Option (List Int)
deriving DecidableEq

/-- Lines 56-87 of the indexing loop body: build the document for one
metadata entry.  `readFile` is the binary file read at line 73-74,
`b64encode` the base64 transport encoding at line 84, `embed` the
Embedding Adapter call at line 76. -/
def mkDocument (file_name : String) (item : MetaItem)
    (readFile : String → String) (b64encode : String → String)
    (embed : String → Option (List Int)) : Document :=
  { page_number := item.page
    image_file_name := file_name
    text := item.image_text
    image_type := item.type
    image := b64encode (readFile file_name)
    content_vector := embed item.image_text }

/-- Observable steps of an indexing run, in program order. -/
inductive IndexEvent where
  | connect
  | sleep (seconds : Nat)
  | indexWrite (doc : Document)
deriving DecidableEq

/-- Is this event an index write? -/
def IndexEvent.isWrite : IndexEvent → Bool
  | .indexWrite _ => true
  | _ => false

/-- `insert_metadata_to_opensearch` (src/lib/opensearch.py 17-98).
`metadatas` is the parsed metadata-store mapping in its iteration
order.  The run is rendered as its event trace — the client connection
(line 37), the fixed `time.sleep(45)` (line 50), then one
`client.index` write per entry (lines 92-95) — paired with the Python
return value: the function body has no `return` statement, so it
returns `None`, modelled as `(none : Option Nat)`. -/
def insert_metadata_to_opensearch (metadatas : List (String × MetaItem))
    (readFile : String → String) (b64encode : String → String)
    (embed : String → Option (List Int)) : List IndexEvent × Option Nat :=
  (IndexEvent.connect :: IndexEvent.sleep 45 ::
     metadatas.map (fun p => IndexEvent.indexWrite (mkDocument p.1 p.2 readFile b64encode embed)),
   none)

/-- Squared Euclidean distance between integer vectors (the model
search engine ranks nearest neighbours by it). -/
def sqDist (v w : List Int) : Int :=
  ((v.zip w).map (fun p => (p.1 - p.2) * (p.1 - p.2))).sum

/-- Insert a document into a list kept sorted by increasing distance of
its `content_vector` (defaulting to `[]`) from `v`. -/
def insertByDist (v : List Int) (d : Document) : List Document → List Document
  | [] => [d]
  | x :: xs =>
      if sqDist (d.content_vector.getD []) v ≤ sqDist (x.content_vector.getD []) v then
        d :: x :: xs
      else
        x :: insertByDist v d xs

/-- Sort documents by increasing distance from `v`. -/
def sortByDist (v : List Int) : List Document → List Document
  | [] => []
  | x :: xs => insertByDist v x (sortByDist v xs)

/-- Does a stored document satisfy a `term` clause?  Exact match on the
named keyword field of the document schema (spec §3 IndexedDocument). -/
def termMatch (field value : String) (d : Document) : Bool :=
  if field == "image_type" then d.image_type == value
  else if field == "image_file_name" then d.image_file_name == value
  else if field == "text" then d.text == value
  else if field == "image" then d.image == value
  else false

/-- The documents an individual `must` clause matches.  A `term` clause
matches by exact field value; a `knn` clause matches the `k` stored
documents possessing the named vector field that are nearest to the
query vector.  This is a semantic model of the external search
engine's documented clause evaluation (spec §4.2, Glossary), not
repository code. -/
def clauseHits (docs : List Document) : Clause → List Document
  | .term field value => docs.filter (termMatch field value)
  | .knn field vector k =>
      if field == "content_vector" then
        (sortByDist vector (docs.filter (fun d => d.content_vector.isSome))).take k
      else
        []

/-- Model of the external index executing a query body: a document is a
hit when every `bool.must` clause matches it, and at most `size` hits
are returned. -/
def searchIndex (docs : List Document) (qb : QueryBody) : List Document :=
  (docs.filter (fun d => qb.must.all (fun c => (clauseHits docs c).contains d))).take qb.size

/-- Render one stored document as a response hit, honouring the
`_source.excludes` list (the document fields minus `content_vector`). -/
def docToHit (d : Document) : JVal :=
  JVal.obj [("_source", JVal.obj
    [("page_number", JVal.num d.page_number),
     ("image_file_name", JVal.str d.image_file_name),
     ("text", JVal.str d.text),
     ("image_type", JVal.str d.image_type),
     ("image", JVal.str d.image)])]

/-- Full model response of the external index for a query body. -/
def modelSearch (docs : List Document) (qb : QueryBody) : JVal :=
  JVal.obj [("hits", JVal.obj [("hits", JVal.arr ((searchIndex docs qb).map docToHit))])]

/-! ## Concrete inputs used by witness instantiations -/

/-- A metadata entry whose text embeds to null. -/
def itemA : MetaItem := ⟨1, "alpha", "main"⟩

/-- A metadata entry whose text embeds to a vector. -/
def itemB : MetaItem := ⟨2, "beta", "sub"⟩

/-- A two-entry metadata store. -/
def storeW : List (String × MetaItem) := [("a.png", itemA), ("b.png", itemB)]

/-- An embedding function returning a vector for `"beta"` only. -/
def embedW : String → Option (List Int) :=
  fun s => if s == "beta" then some [7] else none

/-- A two-document model index, one `sub` and one `main` document. -/
def docsW : List Document :=
  [⟨1, "f1", "t1", "sub", "i1", some [1]⟩, ⟨2, "f2", "t2", "main", "i2", some [2]⟩]

/-- An embedding function that always returns the vector `[1]`. -/
def embedOne : String → Option (List Int) := fun _ => some [1]

/-- A response whose `hits` value is a number: it has no nested `hits`
key, so per the spec it lacks a recognizable hit structure. -/
def respBad : JVal := JVal.obj [("hits", JVal.num 5)]

/-- An error-shaped response with no `hits` key at all. -/
def respErrOnly : JVal := JVal.obj [("error", JVal.str "index_not_found")]

/-- A response whose top-level structure is recognizable but whose one
hit has no `_source` object. -/
def respNoSource : JVal :=
  JVal.obj [("hits", JVal.obj [("hits", JVal.arr [JVal.obj []])])]

/-- A well-formed response hit. -/
def hitA : JVal :=
  JVal.obj [("_source", JVal.obj [("image", JVal.str "imgA"), ("text", JVal.str "txtA")])]

/-- A second well-formed response hit. -/
def hitB : JVal :=
  JVal.obj [("_source", JVal.obj [("image", JVal.str "imgB"), ("text", JVal.str "txtB")])]

/-- A well-formed two-hit response. -/
def respPair : JVal :=
  JVal.obj [("hits", JVal.obj [("hits", JVal.arr [hitA, hitB])])]

/-! ## Helper lemmas -/

/-- Processing the model response reduces to running the hit loop on the
rendered hit list. -/
theorem processResponse_modelSearch (docs : List Document) (qb : QueryBody) :
    processResponse (modelSearch docs qb) =
      extractHits ((searchIndex docs qb).map docToHit) := rfl

/-- One rendered hit extracts to its image and text fields. -/
theorem extractHit_docToHit (d : Document) :
    extractHit (docToHit d) = .ok (JVal.str d.image, JVal.str d.text) := rfl

/-- The hit loop over rendered documents yields the parallel image and
text lists. -/
theorem extractHits_map_docToHit (ds : List Document) :
    extractHits (ds.map docToHit) =
      .ok (ds.map (fun d => JVal.str d.image), ds.map (fun d => JVal.str d.text)) := by
  induction ds with
  | nil => rfl
  | cons d ds ih =>
      simp only [List.map_cons, extractHits, extractHit_docToHit, ih]

/-- With both configuration values present and a non-null embedding, the
query engine makes exactly one embedding call and one search call with
the dispatched query body, and returns the processed response. -/
theorem query_run_configured (q t : String) (c : Nat)
    (embed : String → Option (List Int)) (v : List Int) (ep ix : String)
    (search : QueryBody → JVal) (hv : embed q = some v) :
    query_imagesearch_to_opensearch q t c embed (some ep) (some ix) search =
      { events := [QueryEvent.embedCall q, QueryEvent.searchCall (mkQueryBody t c v)]
        result := processResponse (search (mkQueryBody t c v)) } := by
  simp [query_imagesearch_to_opensearch, hv]

/-- Every document the model index returns for a dispatched query body
satisfies the branch's `term` filter on `image_type`. -/
theorem searchIndex_image_type (docs : List Document) (t : String) (c : Nat)
    (v : List Int) (d : Document)
    (hd : d ∈ searchIndex docs (mkQueryBody t c v)) :
    d.image_type = (if t == "imagesearch" then "sub" else "main") := by
  have h1 : d ∈ docs.filter
      (fun d => (mkQueryBody t c v).must.all (fun cl => (clauseHits docs cl).contains d)) :=
    List.take_subset _ _ hd
  have h2 := (List.mem_filter.mp h1).2
  by_cases ht : t == "imagesearch"
  · rw [if_pos ht]
    rw [mkQueryBody, if_pos ht] at h2
    simp only [List.all_cons, List.all_nil, Bool.and_eq_true, Bool.and_true] at h2
    have h3 : d ∈ clauseHits docs (Clause.term "image_type" "sub") := by
      simpa using h2.1
    have h4 := (List.mem_filter.mp (by simpa [clauseHits] using h3)).2
    simpa [termMatch] using h4
  · rw [if_neg ht]
    rw [mkQueryBody, if_neg ht] at h2
    simp only [List.all_cons, List.all_nil, Bool.and_eq_true, Bool.and_true] at h2
    have h3 : d ∈ clauseHits docs (Clause.term "image_type" "main") := by
      simpa using h2.1
    have h4 := (List.mem_filter.mp (by simpa [clauseHits] using h3)).2
    simpa [termMatch] using h4

/-- A successful hit loop returns lists parallel to the hits: equal
lengths, and position `k` of each output comes from position `k` of the
hit list via `extractHit`. -/
theorem extractHits_parallel (hs : List JVal) (is cs : List JVal)
    (hex : extractHits hs = .ok (is, cs)) :
    is.length = hs.length ∧ cs.length = hs.length ∧
      ∀ (k : Nat) (h : JVal), hs[k]? = some h →
        ∃ img txt, extractHit h = .ok (img, txt) ∧ is[k]? = some img ∧ cs[k]? = some txt := by
  induction hs generalizing is cs with
  | nil =>
      simp only [extractHits] at hex
      obtain ⟨rfl, rfl⟩ : is = [] ∧ cs = [] := by
        cases hex; exact ⟨rfl, rfl⟩
      refine ⟨rfl, rfl, ?_⟩
      intro k h hk
      simp at hk
  | cons h t ih =>
      simp only [extractHits] at hex
      cases hhit : extractHit h with
      | error e => rw [hhit] at hex; cases hex
      | ok p =>
          obtain ⟨img, txt⟩ := p
          rw [hhit] at hex
          cases hrest : extractHits t with
          | error e => rw [hrest] at hex; cases hex
          | ok q =>
              obtain ⟨is', cs'⟩ := q
              rw [hrest] at hex
              have hex2 : (Except.ok (img :: is', txt :: cs') :
                  Except String (List JVal × List JVal)) = .ok (is, cs) := hex
              obtain ⟨rfl, rfl⟩ : is = img :: is' ∧ cs = txt :: cs' := by
                cases hex2; exact ⟨rfl, rfl⟩
              obtain ⟨hl1, hl2, hpar⟩ := ih is' cs' hrest
              refine ⟨by simp [hl1], by simp [hl2], ?_⟩
              intro k x hk
              match k with
              | 0 =>
                  simp at hk
                  subst hk
                  exact ⟨img, txt, hhit, by simp, by simp⟩
              | k + 1 =>
                  simp at hk
                  obtain ⟨i2, t2, hext, hi, ht⟩ := hpar k x hk
                  exact ⟨i2, t2, hext, by simpa using hi, by simpa using ht⟩

/-- Processing a response with the well-formed nesting reduces to the
hit loop. -/
theorem processResponse_hits_obj (hs : List JVal) :
    processResponse (JVal.obj [("hits", JVal.obj [("hits", JVal.arr hs)])]) =
      extractHits hs := rfl

/-- When either membership test of the guard evaluates to `false` (no
exception on the way), the response processing returns the empty
pair. -/
theorem processResponse_guard_fail (response : JVal)
    (hguard : pyMember "hits" response = .ok false ∨
      ∃ hv2, pyMember "hits" response = .ok true ∧
        getItem response "hits" = .ok hv2 ∧ pyMember "hits" hv2 = .ok false) :
    processResponse response = .ok ([], []) := by
  rcases hguard with h | ⟨hv2, h1, h2, h3⟩
  · simp only [processResponse, h]
  · simp only [processResponse, h1, h2, h3]

/-! ## Claim theorems -/

/-- C1: For every call to the query engine, the mode string selects the
type filter as a binary dispatch — mode `"imagesearch"` filters on
`image_type == "sub"`, any other mode on `image_type == "main"` — so
the documents returned (here by the model index) are exclusively of the
selected type. -/
theorem c1_mode_dispatch_filters_returned_type
    (docs : List Document) (q t : String) (c : Nat)
    (embed : String → Option (List Int)) (v : List Int) (ep ix : String)
    (hv : embed q = some v) :
    (query_imagesearch_to_opensearch q t c embed (some ep) (some ix) (modelSearch docs)).result =
      .ok ((searchIndex docs (mkQueryBody t c v)).map (fun d => JVal.str d.image),
           (searchIndex docs (mkQueryBody t c v)).map (fun d => JVal.str d.text))
    ∧ ∀ d ∈ searchIndex docs (mkQueryBody t c v),
        d.image_type = (if t == "imagesearch" then "sub" else "main") := by
  constructor
  · rw [query_run_configured q t c embed v ep ix (modelSearch docs) hv]
    rw [processResponse_modelSearch, extractHits_map_docToHit]
  · intro d hd
    exact searchIndex_image_type docs t c v d hd

/-- Witness for C1 at a concrete two-document index and mode
`"imagesearch"`. -/
theorem c1_witness :
    embedOne "x" = some [1] ∧
    ((query_imagesearch_to_opensearch "x" "imagesearch" 5
        embedOne (some "ep") (some "ix") (modelSearch docsW)).result =
      .ok ((searchIndex docsW (mkQueryBody "imagesearch" 5 [1])).map (fun d => JVal.str d.image),
           (searchIndex docsW (mkQueryBody "imagesearch" 5 [1])).map (fun d => JVal.str d.text))
     ∧ ∀ d ∈ searchIndex docsW (mkQueryBody "imagesearch" 5 [1]),
         d.image_type = (if "imagesearch" == "imagesearch" then "sub" else "main")) :=
  ⟨rfl, c1_mode_dispatch_filters_returned_type docsW
    "x" "imagesearch" 5 embedOne [1] "ep" "ix" rfl⟩

/-- C2: For every metadata entry whose embedding call returns null, the
indexing engine still writes the assembled document and that document
carries no `content_vector`; for every entry whose embedding call
returns a vector, the document's `content_vector` equals that vector. -/
theorem c2_missing_embedding_nonfatal
    (metadatas : List (String × MetaItem)) (readFile b64encode : String → String)
    (embed : String → Option (List Int)) (fn : String) (item : MetaItem)
    (hmem : (fn, item) ∈ metadatas) :
    IndexEvent.indexWrite (mkDocument fn item readFile b64encode embed)
        ∈ (insert_metadata_to_opensearch metadatas readFile b64encode embed).1
    ∧ (embed item.image_text = none →
        (mkDocument fn item readFile b64encode embed).content_vector = none)
    ∧ ∀ vec : List Int, embed item.image_text = some vec →
        (mkDocument fn item readFile b64encode embed).content_vector = some vec := by
  refine ⟨?_, fun h => by simp [mkDocument, h], fun vec h => by simp [mkDocument, h]⟩
  apply List.mem_cons_of_mem
  apply List.mem_cons_of_mem
  exact List.mem_map_of_mem _ hmem

/-- Witness for C2 at a concrete two-entry store whose embedding
function returns null for the first entry and a vector for the
second. -/
theorem c2_witness :
    (("a.png", itemA) ∈ storeW) ∧
    (IndexEvent.indexWrite (mkDocument "a.png" itemA id id embedW)
        ∈ (insert_metadata_to_opensearch storeW id id embedW).1
     ∧ (embedW itemA.image_text = none →
         (mkDocument "a.png" itemA id id embedW).content_vector = none)
     ∧ ∀ vec : List Int, embedW itemA.image_text = some vec →
         (mkDocument "a.png" itemA id id embedW).content_vector = some vec) :=
  ⟨by decide, c2_missing_embedding_nonfatal storeW id id embedW "a.png" itemA (by decide)⟩

/-- C3: With a missing endpoint or index name, the query engine returns
the pair of two empty sequences, raises nothing, and makes no embedding
or search call (its external-call trace is empty). -/
theorem c3_missing_config_fails_fast
    (q t : String) (c : Nat) (embed : String → Option (List Int))
    (ep ix : Option String) (search : QueryBody → JVal)
    (hcfg : ep = none ∨ ix = none) :
    (query_imagesearch_to_opensearch q t c embed ep ix search).events = []
    ∧ (query_imagesearch_to_opensearch q t c embed ep ix search).result = .ok ([], []) := by
  rcases hcfg with h | h <;> subst h <;>
    simp [query_imagesearch_to_opensearch]

/-- Witness for C3 with a missing endpoint. -/
theorem c3_witness :
    ((none : Option String) = none ∨ (some "ix" : Option String) = none) ∧
    ((query_imagesearch_to_opensearch "x" "imagesearch" 5
        (fun _ => some ([1] : List Int)) none (some "ix") (fun _ => JVal.null)).events = []
     ∧ (query_imagesearch_to_opensearch "x" "imagesearch" 5
        (fun _ => some ([1] : List Int)) none (some "ix") (fun _ => JVal.null)).result =
          .ok ([], [])) :=
  ⟨Or.inl rfl, c3_missing_config_fails_fast "x" "imagesearch" 5
    (fun _ => some [1]) none (some "ix") (fun _ => JVal.null) (Or.inl rfl)⟩

/-- C4 counterexample: the response `{"hits": 5}` has a `hits` key but
no nested `hits` key, so per the claim it lacks a recognizable hit
structure and the call should return `([], [])` without raising;
instead the guard itself raises `TypeError` (Python evaluates
`'hits' in response['hits']` on an integer). -/
theorem c4_counterexample :
    (query_imagesearch_to_opensearch "x" "contentsearch" 5 embedOne
        (some "ep") (some "ix") (fun _ => respBad)).result =
      .error "TypeError: argument is not iterable" ∧
    (query_imagesearch_to_opensearch "x" "contentsearch" 5 embedOne
        (some "ep") (some "ix") (fun _ => respBad)).result ≠ .ok ([], []) := by
  refine ⟨rfl, ?_⟩
  intro h
  rw [show (query_imagesearch_to_opensearch "x" "contentsearch" 5 embedOne
      (some "ep") (some "ix") (fun _ => respBad)).result =
      Except.error "TypeError: argument is not iterable" from rfl] at h
  exact Except.noConfusion h

/-- C4 (amended): whenever the guard's two membership tests evaluate
without raising and at least one is false — in particular whenever the
response object has no `hits` key, or its `hits` value is an object
without a nested `hits` key — the call returns the pair of two empty
sequences (and logs an error).  When the nested membership test cannot
be evaluated (the `hits` value is a number or null), the call raises
instead. -/
theorem c4_amended_guard_fail_returns_empty (q t : String) (c : Nat)
    (embed : String → Option (List Int)) (v : List Int) (ep ix : String)
    (search : QueryBody → JVal) (hv : embed q = some v)
    (hguard : pyMember "hits" (search (mkQueryBody t c v)) = .ok false ∨
      ∃ hv2, pyMember "hits" (search (mkQueryBody t c v)) = .ok true ∧
        getItem (search (mkQueryBody t c v)) "hits" = .ok hv2 ∧
        pyMember "hits" hv2 = .ok false) :
    (query_imagesearch_to_opensearch q t c embed (some ep) (some ix) search).result =
      .ok ([], []) := by
  rw [query_run_configured q t c embed v ep ix search hv]
  exact processResponse_guard_fail _ hguard

/-- Witness for the amended C4 on an error-shaped response with no
`hits` key. -/
theorem c4_witness :
    embedOne "x" = some [1] ∧
    (pyMember "hits" ((fun _ : QueryBody => respErrOnly) (mkQueryBody "contentsearch" 3 [1])) =
        .ok false ∨
      ∃ hv2, pyMember "hits" ((fun _ : QueryBody => respErrOnly) (mkQueryBody "contentsearch" 3 [1])) =
          .ok true ∧
        getItem ((fun _ : QueryBody => respErrOnly) (mkQueryBody "contentsearch" 3 [1])) "hits" =
          .ok hv2 ∧
        pyMember "hits" hv2 = .ok false) ∧
    (query_imagesearch_to_opensearch "x" "contentsearch" 3 embedOne
        (some "ep") (some "ix") (fun _ => respErrOnly)).result = .ok ([], []) :=
  ⟨rfl, Or.inl rfl,
    c4_amended_guard_fail_returns_empty "x" "contentsearch" 3 embedOne [1] "ep" "ix"
      (fun _ => respErrOnly) rfl (Or.inl rfl)⟩

/-- C5 counterexample: on a concrete two-entry store the indexing
function does not return the number of entries processed — its body has
no return statement, so the Python return value is `None`. -/
theorem c5_counterexample :
    (insert_metadata_to_opensearch storeW id id embedW).2 ≠ some storeW.length := by
  intro h
  rw [show (insert_metadata_to_opensearch storeW id id embedW).2 = none from rfl] at h
  exact Option.noConfusion h

/-- C5 (amended): the indexing run returns no count (Python `None`); it
does issue exactly one index write per metadata entry, so the number of
documents indexed equals the number of entries processed. -/
theorem c5_amended_no_count_one_write_per_entry
    (metadatas : List (String × MetaItem)) (readFile b64encode : String → String)
    (embed : String → Option (List Int)) :
    ((insert_metadata_to_opensearch metadatas readFile b64encode embed).1.countP
        IndexEvent.isWrite) = metadatas.length
    ∧ (insert_metadata_to_opensearch metadatas readFile b64encode embed).2 = none := by
  refine ⟨?_, rfl⟩
  simp only [insert_metadata_to_opensearch, List.countP_cons, IndexEvent.isWrite]
  induction metadatas with
  | nil => rfl
  | cons p ps ih =>
      simp [List.countP_cons, IndexEvent.isWrite]

/-- C6: with a configured endpoint and index, a query whose embedding
call returns null raises `TypeError` (the source computes
`len(vector_query)` on `None` at line 135) after the embedding call,
instead of treating null as "no vector available".  This evaluates the
code at the failing input of the code-bug report. -/
theorem c6_null_query_embedding_raises :
    (query_imagesearch_to_opensearch "x" "imagesearch" 5 (fun _ => none)
        (some "ep") (some "ix") (fun _ => JVal.null)).result =
      .error "TypeError: object of type NoneType has no len" ∧
    (query_imagesearch_to_opensearch "x" "imagesearch" 5 (fun _ => none)
        (some "ep") (some "ix") (fun _ => JVal.null)).events =
      [QueryEvent.embedCall "x"] :=
  ⟨rfl, rfl⟩

/-- C7: every configured query issues exactly one search whose body has
`size` equal to the caller-supplied `doc_count` and whose
nearest-neighbor clause uses `k = 5`, independent of `doc_count`. -/
theorem c7_knn_k_fixed_size_from_doc_count (q t : String) (c : Nat)
    (embed : String → Option (List Int)) (v : List Int) (ep ix : String)
    (search : QueryBody → JVal) (hv : embed q = some v) :
    (query_imagesearch_to_opensearch q t c embed (some ep) (some ix) search).events =
      [QueryEvent.embedCall q, QueryEvent.searchCall (mkQueryBody t c v)]
    ∧ (mkQueryBody t c v).size = c
    ∧ (mkQueryBody t c v).must =
        [Clause.term "image_type" (if t == "imagesearch" then "sub" else "main"),
         Clause.knn "content_vector" v 5] := by
  refine ⟨?_, ?_, ?_⟩
  · rw [query_run_configured q t c embed v ep ix search hv]
  · by_cases ht : t == "imagesearch" <;> simp [mkQueryBody, ht]
  · by_cases ht : t == "imagesearch" <;> simp [mkQueryBody, ht]

/-- Witness for C7 with `doc_count = 9` and a non-imagesearch mode. -/
theorem c7_witness :
    embedOne "x" = some [1] ∧
    ((query_imagesearch_to_opensearch "x" "foo" 9 embedOne (some "ep") (some "ix")
        (fun _ => JVal.null)).events =
      [QueryEvent.embedCall "x", QueryEvent.searchCall (mkQueryBody "foo" 9 [1])]
     ∧ (mkQueryBody "foo" 9 [1]).size = 9
     ∧ (mkQueryBody "foo" 9 [1]).must =
        [Clause.term "image_type" (if "foo" == "imagesearch" then "sub" else "main"),
         Clause.knn "content_vector" [1] 5]) :=
  ⟨rfl, c7_knn_k_fixed_size_from_doc_count "x" "foo" 9 embedOne [1] "ep" "ix"
    (fun _ => JVal.null) rfl⟩

/-- C8: in every indexing run, any index write in the event trace is
preceded by the fixed 45-second settling sleep: no write is issued
before the wait completes. -/
theorem c8_no_write_before_settling_sleep
    (metadatas : List (String × MetaItem)) (readFile b64encode : String → String)
    (embed : String → Option (List Int)) (i : Nat) (d : Document)
    (hw : (insert_metadata_to_opensearch metadatas readFile b64encode embed).1[i]? =
      some (IndexEvent.indexWrite d)) :
    ∃ j, j < i ∧
      (insert_metadata_to_opensearch metadatas readFile b64encode embed).1[j]? =
        some (IndexEvent.sleep 45) := by
  match i with
  | 0 => simp [insert_metadata_to_opensearch] at hw
  | 1 => simp [insert_metadata_to_opensearch] at hw
  | (k + 2) =>
      exact ⟨1, by omega, by simp [insert_metadata_to_opensearch]⟩

/-- Witness for C8: in the concrete two-entry run the write at trace
position 2 is preceded by the sleep at position 1. -/
theorem c8_witness :
    ((insert_metadata_to_opensearch storeW id id embedW).1[2]? =
      some (IndexEvent.indexWrite (mkDocument "a.png" itemA id id embedW))) ∧
    ∃ j, j < 2 ∧ (insert_metadata_to_opensearch storeW id id embedW).1[j]? =
      some (IndexEvent.sleep 45) :=
  ⟨rfl, c8_no_write_before_settling_sleep storeW id id embedW 2
    (mkDocument "a.png" itemA id id embedW) rfl⟩

/-- C9: a configured query whose response carries a well-formed hit
list returns image and content sequences that are parallel to the hit
list: equal lengths, and the entries at each position come from the
same hit's `_source.image` and `_source.text` fields, in response
order. -/
theorem c9_parallel_ordered_results (q t : String) (c : Nat)
    (embed : String → Option (List Int)) (v : List Int) (ep ix : String)
    (search : QueryBody → JVal) (hs is cs : List JVal)
    (hv : embed q = some v)
    (hresp : search (mkQueryBody t c v) =
      JVal.obj [("hits", JVal.obj [("hits", JVal.arr hs)])])
    (hex : extractHits hs = .ok (is, cs)) :
    (query_imagesearch_to_opensearch q t c embed (some ep) (some ix) search).result =
      .ok (is, cs)
    ∧ is.length = hs.length ∧ cs.length = hs.length
    ∧ ∀ (k : Nat) (h : JVal), hs[k]? = some h →
        ∃ img txt, extractHit h = .ok (img, txt) ∧ is[k]? = some img ∧ cs[k]? = some txt := by
  obtain ⟨h1, h2, h3⟩ := extractHits_parallel hs is cs hex
  refine ⟨?_, h1, h2, h3⟩
  rw [query_run_configured q t c embed v ep ix search hv]
  show processResponse (search (mkQueryBody t c v)) = .ok (is, cs)
  rw [hresp, processResponse_hits_obj]
  exact hex

/-- Witness for C9 on a concrete two-hit response. -/
theorem c9_witness :
    embedOne "x" = some [1] ∧
    ((fun _ : QueryBody => respPair) (mkQueryBody "imagesearch" 2 [1]) =
      JVal.obj [("hits", JVal.obj [("hits", JVal.arr [hitA, hitB])])]) ∧
    (extractHits [hitA, hitB] =
      .ok ([JVal.str "imgA", JVal.str "imgB"], [JVal.str "txtA", JVal.str "txtB"])) ∧
    ((query_imagesearch_to_opensearch "x" "imagesearch" 2 embedOne (some "ep") (some "ix")
        (fun _ => respPair)).result =
      .ok ([JVal.str "imgA", JVal.str "imgB"], [JVal.str "txtA", JVal.str "txtB"])
     ∧ ([JVal.str "imgA", JVal.str "imgB"] : List JVal).length = ([hitA, hitB] : List JVal).length
     ∧ ([JVal.str "txtA", JVal.str "txtB"] : List JVal).length = ([hitA, hitB] : List JVal).length
     ∧ ∀ (k : Nat) (h : JVal), ([hitA, hitB] : List JVal)[k]? = some h →
        ∃ img txt, extractHit h = .ok (img, txt) ∧
          ([JVal.str "imgA", JVal.str "imgB"] : List JVal)[k]? = some img ∧
          ([JVal.str "txtA", JVal.str "txtB"] : List JVal)[k]? = some txt) :=
  ⟨rfl, rfl, rfl,
    c9_parallel_ordered_results "x" "imagesearch" 2 embedOne [1] "ep" "ix"
      (fun _ => respPair) [hitA, hitB]
      [JVal.str "imgA", JVal.str "imgB"] [JVal.str "txtA", JVal.str "txtB"]
      rfl rfl rfl⟩

/-- C10: a response whose top-level structure is recognizable but whose
individual hit lacks `_source` makes the query engine raise a
key-lookup error instead of returning the empty pair: the guard only
inspects the top-level structure. -/
theorem c10_hit_level_malformation_raises :
    (query_imagesearch_to_opensearch "x" "imagesearch" 5 embedOne
        (some "ep") (some "ix") (fun _ => respNoSource)).result =
      .error "KeyError: _source" ∧
    (query_imagesearch_to_opensearch "x" "imagesearch" 5 embedOne
        (some "ep") (some "ix") (fun _ => respNoSource)).result ≠ .ok ([], []) := by
  refine ⟨rfl, ?_⟩
  intro h
  rw [show (query_imagesearch_to_opensearch "x" "imagesearch" 5 embedOne
      (some "ep") (some "ix") (fun _ => respNoSource)).result =
      Except.error "KeyError: _source" from rfl] at h
  exact Except.noConfusion h
